import Mathlib

/-
Verification of the direct-manipulation transform engine of GeometryView
(src/Selection.h: GeometryView::pick, GeometryView::grab, GeometryView::draw,
GeometryView::terminate).

Embedding conventions:
* All scalar arithmetic is over ℚ (the C++ uses float; the algebraic claims are
  about the ideal real arithmetic the floats approximate).
* Geometry is 2-dimensional: the source's vec3/vec4 data carry a z component
  that the spec declares unused ("scale: vec3 (non-uniform, z unused)",
  "crop: vec2 (fraction, z unused)"), and every claim speaks only about the
  x/y components.  Points are `Vec2`, 4x4 affine matrices are `Affine2`
  (2x2 linear part plus translation), `glm::inverse` is `Affine2.inv`
  (the exact affine inverse, which is what glm computes on invertible input).
* The transcendental glm library functions that cannot be represented inside ℚ
  (`glm::length` i.e. the Euclidean norm, cos/sin/tan used to materialize a
  rotation, `glm::orientedAngle`, `glm::degrees`/`glm::radians`) are supplied
  as an explicit `GlmOracle` parameter.  Each theorem that depends on a true
  fact about those functions (e.g. ‖(2,2)‖ = 2·‖(1,1)‖, cos 0 = 1) assumes
  exactly that fact about the oracle as a hypothesis; theorems about the
  structure of the computation hold for every oracle.
* `Rendering::unProject` (src/src/RenderingManager.cpp) is the camera service
  that converts a screen point into a scene point; it is injective on the view
  plane.  `grab` below takes the already-unprojected scene points
  (`scene_from` / `scene_to` of the C++), which is where every rule's own
  mathematics begins.
-/

/-- A 2D point / vector over ℚ, the x/y part of the glm vec3/vec4 values. -/
structure Vec2 where
  x : ℚ
  y : ℚ
deriving DecidableEq

instance : Add Vec2 := ⟨fun a b => ⟨a.x + b.x, a.y + b.y⟩⟩

instance : Sub Vec2 := ⟨fun a b => ⟨a.x - b.x, a.y - b.y⟩⟩

instance : Mul Vec2 := ⟨fun a b => ⟨a.x * b.x, a.y * b.y⟩⟩

instance : Div Vec2 := ⟨fun a b => ⟨a.x / b.x, a.y / b.y⟩⟩

instance : Neg Vec2 := ⟨fun a => ⟨-a.x, -a.y⟩⟩

theorem Vec2.ext2 (p q : Vec2) (hx : p.x = q.x) (hy : p.y = q.y) : p = q := by
  cases p; cases q; simp_all

@[simp] theorem Vec2.add_def (a b : Vec2) : a + b = ⟨a.x + b.x, a.y + b.y⟩ := rfl

@[simp] theorem Vec2.sub_def (a b : Vec2) : a - b = ⟨a.x - b.x, a.y - b.y⟩ := rfl

@[simp] theorem Vec2.mul_def (a b : Vec2) : a * b = ⟨a.x * b.x, a.y * b.y⟩ := rfl

@[simp] theorem Vec2.div_def (a b : Vec2) : a / b = ⟨a.x / b.x, a.y / b.y⟩ := rfl

@[simp] theorem Vec2.neg_def (a : Vec2) : -a = ⟨-a.x, -a.y⟩ := rfl

/-- A 2D affine transform: linear part [[a,b],[c,d]] plus translation (tx,ty).
This is the x/y restriction of the 4x4 glm matrices the code manipulates
(all of which have the block form linear ⊕ translation). -/
structure Affine2 where
  a : ℚ
  b : ℚ
  c : ℚ
  d : ℚ
  tx : ℚ
  ty : ℚ
deriving DecidableEq

/-- Application of an affine matrix to a point (a vec4 with w = 1). -/
def Affine2.apply (m : Affine2) (p : Vec2) : Vec2 :=
  ⟨m.a * p.x + m.b * p.y + m.tx, m.c * p.x + m.d * p.y + m.ty⟩

/-- Application of the linear part to a direction (a vec4 with w = 0). -/
def Affine2.applyLin (m : Affine2) (p : Vec2) : Vec2 :=
  ⟨m.a * p.x + m.b * p.y, m.c * p.x + m.d * p.y⟩

/-- Matrix product: `(m₁.comp m₂).apply p = m₁.apply (m₂.apply p)`. -/
def Affine2.comp (m₁ m₂ : Affine2) : Affine2 :=
  ⟨m₁.a * m₂.a + m₁.b * m₂.c,
   m₁.a * m₂.b + m₁.b * m₂.d,
   m₁.c * m₂.a + m₁.d * m₂.c,
   m₁.c * m₂.b + m₁.d * m₂.d,
   m₁.a * m₂.tx + m₁.b * m₂.ty + m₁.tx,
   m₁.c * m₂.tx + m₁.d * m₂.ty + m₁.ty⟩

/-- Determinant of the linear part. -/
def Affine2.det (m : Affine2) : ℚ := m.a * m.d - m.b * m.c

/-- The affine inverse, i.e. what `glm::inverse` computes on an invertible
affine matrix: inverse linear part L⁻¹ and translation −L⁻¹t. -/
def Affine2.inv (m : Affine2) : Affine2 :=
  ⟨m.d / m.det, -m.b / m.det, -m.c / m.det, m.a / m.det,
   -(m.d / m.det * m.tx + -m.b / m.det * m.ty),
   -(-m.c / m.det * m.tx + m.a / m.det * m.ty)⟩

/-- Translation matrix, `glm::translate`. -/
def translateM (t : Vec2) : Affine2 := ⟨1, 0, 0, 1, t.x, t.y⟩

/-- Scale matrix, `glm::scale`. -/
def scaleM (s : Vec2) : Affine2 := ⟨s.x, 0, 0, s.y, 0, 0⟩

/-- Rotation matrix about z with given cosine and sine values. -/
def rotM (co si : ℚ) : Affine2 := ⟨co, -si, si, co, 0, 0⟩

theorem Affine2.apply_comp (m₁ m₂ : Affine2) (p : Vec2) :
    (m₁.comp m₂).apply p = m₁.apply (m₂.apply p) := by
  apply Vec2.ext2 <;> simp [Affine2.comp, Affine2.apply] <;> ring

theorem Affine2.det_comp (m₁ m₂ : Affine2) :
    (m₁.comp m₂).det = m₁.det * m₂.det := by
  simp [Affine2.comp, Affine2.det]; ring

theorem Affine2.det_inv (m : Affine2) : m.inv.det = m.det⁻¹ := by
  simp only [Affine2.inv, Affine2.det]
  by_cases h : m.a * m.d - m.b * m.c = 0
  · simp [h]
  · apply eq_inv_of_mul_eq_one_left
    field_simp
    left
    ring

theorem Affine2.inv_apply_apply (m : Affine2) (h : m.det ≠ 0) (p : Vec2) :
    m.inv.apply (m.apply p) = p := by
  obtain ⟨a, b, c, d, tx, ty⟩ := m
  simp only [Affine2.det] at h
  apply Vec2.ext2 <;>
    · simp only [Affine2.inv, Affine2.apply, Affine2.det]
      field_simp
      ring

theorem Affine2.apply_inv_apply (m : Affine2) (h : m.det ≠ 0) (p : Vec2) :
    m.apply (m.inv.apply p) = p := by
  obtain ⟨a, b, c, d, tx, ty⟩ := m
  simp only [Affine2.det] at h
  apply Vec2.ext2 <;>
    · simp only [Affine2.inv, Affine2.apply, Affine2.det]
      field_simp
      ring

/-- The transcendental glm functions used by `GeometryView::grab`, supplied as
an oracle because their exact values are not rational.  `len` is
`glm::length` on a vec2 (the Euclidean norm), `cosQ`/`sinQ`/`tanQ` are the
trigonometric functions of an angle in radians, `orientedAngle` is
`glm::orientedAngle` on two (already normalized) vectors, and `degOf`/`radOf`
are `glm::degrees`/`glm::radians`.  Theorems assume the specific true facts
about these functions that they need. -/
structure GlmOracle where
  len : Vec2 → ℚ
  cosQ : ℚ → ℚ
  sinQ : ℚ → ℚ
  orientedAngle : Vec2 → Vec2 → ℚ
  degOf : ℚ → ℚ
  radOf : ℚ → ℚ
  tanQ : ℚ → ℚ

/-- A computable stand-in oracle used to instantiate witnesses; its values
agree with the real functions exactly where a witness's hypotheses demand. -/
def dummyOracle : GlmOracle where
  len := fun v => v.x + v.y
  cosQ := fun _ => 1
  sinQ := fun _ => 0
  orientedAngle := fun _ _ => 0
  degOf := fun q => q
  radOf := fun q => q
  tanQ := fun _ => 0

/-- Modelled from the spec: the ROUND(value, factor) helper of defines.h
(defines.h is not part of src/); per the spec's handle rules it rounds to the
nearest multiple of 1/factor, e.g. ROUND(v, 10) rounds to the nearest 0.1. -/
def ROUNDQ (v factor : ℚ) : ℚ := ((round (v * factor) : ℤ) : ℚ) / factor

/-- Modelled from the spec: the CLAMP(value, lo, hi) helper of defines.h,
ordinary clamping to the interval [lo, hi], written as the C conditional. -/
def CLAMPQ (v lo hi : ℚ) : ℚ := if v < lo then lo else if hi < v then hi else v

/-- Modelled from the spec: the SIGN helper of defines.h, used in the
"restore aspect ratio" rule ("sign preserved"); a C-style sign that maps
negative values to -1 and everything else (including 0) to 1. -/
def SIGNQ (q : ℚ) : ℚ := if q < 0 then -1 else 1

/-- Sign in the sense of `glm::sign` (used only for cursor hints): -1/0/1. -/
def signG (q : ℚ) : ℚ := if q < 0 then -1 else if q = 0 then 0 else 1

/-- C-style cast of a float to int: truncation toward zero (the `int(...)`
cast applied to `glm::degrees(...)` in the ROTATE rule). -/
def ctrunc (q : ℚ) : ℤ := if q < 0 then -Int.floor (-q) else Int.floor q

/-- Rounding in the sense of `glm::round`: to the nearest integer, halfway
cases away from zero (used to turn the picked local coordinate into the
corner (±1, ±1)). -/
def roundHalfAway (q : ℚ) : ℚ :=
  if q < 0 then -((Int.floor (-q + 1/2) : ℤ) : ℚ) else ((Int.floor (q + 1/2) : ℤ) : ℚ)

/-- Componentwise `glm::round` of a vec2. -/
def roundV (v : Vec2) : Vec2 := ⟨roundHalfAway v.x, roundHalfAway v.y⟩

/-- Normalization of a vec2, `glm::normalize` (division by the norm). -/
def vnormalize (o : GlmOracle) (v : Vec2) : Vec2 := ⟨v.x / o.len v, v.y / o.len v⟩

/-- The transform fields of a source's Group node in the Geometry view
(`translation_`, `rotation_.z`, `scale_`, `crop_` of `s->group(mode_)`),
and likewise of the stored snapshot `s->stored_status_`.  z components are
unused per the spec and omitted. -/
structure NodeState where
  translation : Vec2
  rotation : ℚ
  scale : Vec2
  crop : Vec2
deriving DecidableEq

/-- Modelled from the spec: the node's matrix materialization
(`Node::update`, not part of src/) — `transform_` is
translate(translation) · rotate_z(rotation) · scale(scale), the standard
TRS composition the corner-frame formula of §4.1 builds on. -/
def nodeMatrix (o : GlmOracle) (n : NodeState) : Affine2 :=
  (translateM n.translation).comp
    ((rotM (o.cosQ n.rotation) (o.sinQ n.rotation)).comp (scaleM n.scale))

/-- The matrix `T` of `GeometryView::grab`:
`GlmToolkit::transform(vec3(corner,0), 0, vec3(1/aspectRatio, 1, 1))`,
i.e. translate(corner) · scale(1/aspectRatio, 1).  (GlmToolkit::transform,
not part of src/, is the translate·rotate·scale builder per spec §4.1;
the rotation argument is zero here.) -/
def cornerT (ar : ℚ) (corner : Vec2) : Affine2 :=
  (translateM corner).comp (scaleM ⟨1 / ar, 1⟩)

/-- `scene_to_corner_transform = T * glm::inverse(s->stored_status_->transform_)`
of `GeometryView::grab`. -/
def sceneToCorner (o : GlmOracle) (n : NodeState) (ar : ℚ) (corner : Vec2) : Affine2 :=
  (cornerT ar corner).comp (nodeMatrix o n).inv

/-- Scene-space position of the object's corner κ ∈ {±1}²: the corner-frame
construction `cornerT` places the object's corners at (±aspectRatio, ±1) in
node-local coordinates, so the scene position of corner κ is the node matrix
applied to (aspectRatio·κ.x, κ.y). -/
def cornerScenePos (o : GlmOracle) (n : NodeState) (ar : ℚ) (κ : Vec2) : Vec2 :=
  (nodeMatrix o n).apply ⟨ar * κ.x, κ.y⟩

/-- The seven handle kinds of `Handles::` compared against `pick.first`. -/
inductive HandleType
  | RESIZE
  | RESIZE_H
  | RESIZE_V
  | SCALE
  | CROP
  | ROTATE
  | MENU
deriving DecidableEq

/-- What the pick handed to `grab` matched: `nothing` is a null `pick.first`;
`onNode h lc` is a non-null node of the source, where `h` says which handle
node of the source it is (`none` for a non-handle node such as the frame or
locker) and `lc` is `pick.second`, the picked local coordinate. -/
inductive GrabPick
  | nothing
  | onNode (h : Option HandleType) (localCoord : Vec2)
deriving DecidableEq

/-- The two keyboard modifiers sampled inside `grab`
(`UserInterface::manager().shiftModifier()` / `.altModifier()`). -/
structure Mods where
  shift : Bool
  alt : Bool
deriving DecidableEq

/-- Cursor shapes of `View::Cursor`; `arrow` is the default-constructed
(neutral) cursor. -/
inductive CursorType
  | arrow
  | resizeNESW
  | resizeNWSE
  | resizeNS
  | resizeEW
  | resizeAll
  | hand
deriving DecidableEq

/-- `GeometryView::grab (Source *s, vec2 from, vec2 to, pick)` of
src/Selection.h (lines 440-813), for a non-null source.  `snap` is
`s->stored_status_` (the drag snapshot), `live` holds the current fields of
`sourceNode = s->group(mode_)`, `ar` is `s->frame()->aspectRatio()`, and
`sceneFrom`/`sceneTo` are the unprojected `scene_from`/`scene_to`.  Returns
the new node fields and the cursor hint; overlay bookkeeping and the info
string have no effect on the transform and are not modelled. -/
def grab (o : GlmOracle) (snap live : NodeState) (ar : ℚ) (sceneFrom sceneTo : Vec2)
    (pk : GrabPick) (m : Mods) : NodeState × CursorType :=
  match pk with
  | GrabPick.nothing => (live, CursorType.arrow)
  | GrabPick.onNode h localCoord =>
    let sceneTranslation := sceneTo - sceneFrom
    let M := nodeMatrix o snap
    let sourceFrom := M.inv.apply sceneFrom
    let sourceTo := M.inv.apply sceneTo
    let sourceScaling := sourceTo / sourceFrom
    let corner := roundV localCoord
    let Csc := sceneToCorner o snap ar corner
    let Ccs := Csc.inv
    let cornerFrom := Csc.apply sceneFrom
    let cornerTo := Csc.apply sceneTo
    let cornerScaling := cornerTo / cornerFrom
    let center := Csc.apply snap.translation
    if h = some HandleType.RESIZE then
      -- RESIZE corner handle
      let pair :=
        if m.shift then
          let factor := o.len cornerTo / o.len cornerFrom
          let scale1 : Vec2 := snap.scale * ⟨factor, factor⟩
          let scale2 : Vec2 :=
            if m.alt then
              let x2 := ROUNDQ scale1.x 10
              let f2 := x2 / snap.scale.x
              ⟨x2, snap.scale.y * f2⟩
            else scale1
          (scale2, scale2 / snap.scale)
        else
          let scale1 : Vec2 := snap.scale * cornerScaling
          if m.alt then
            let scale2 : Vec2 := ⟨ROUNDQ scale1.x 10, ROUNDQ scale1.y 10⟩
            (scale2, scale2 / snap.scale)
          else (scale1, cornerScaling)
      let newCenter := Ccs.apply ((scaleM pair.2).apply center)
      let trs := (rotM (o.cosQ snap.rotation) (o.sinQ snap.rotation)).comp (scaleM snap.scale)
      let cdir := trs.applyLin corner
      let cur := if cdir.x * cdir.y > 0 then CursorType.resizeNESW else CursorType.resizeNWSE
      ({ live with translation := newCenter, scale := pair.1 }, cur)
    else if h = some HandleType.RESIZE_H then
      -- left/right border RESIZE handle
      let pair :=
        if m.shift then
          let newScale : Vec2 := ⟨|live.scale.y| * SIGNQ live.scale.x, live.scale.y⟩
          (newScale, newScale / snap.scale)
        else
          let k1 : Vec2 := ⟨cornerScaling.x, 1⟩
          let scale1 := snap.scale * k1
          if m.alt then
            let scale2 : Vec2 := ⟨ROUNDQ scale1.x 10, scale1.y⟩
            (scale2, scale2 / snap.scale)
          else (scale1, k1)
      let newCenter := Ccs.apply ((scaleM pair.2).apply center)
      let cv := o.tanQ live.rotation
      let cur := if |cv| > 1 then CursorType.resizeNS else CursorType.resizeEW
      ({ live with translation := newCenter, scale := pair.1 }, cur)
    else if h = some HandleType.RESIZE_V then
      -- top/bottom border RESIZE handle
      let pair :=
        if m.shift then
          let newScale : Vec2 := ⟨live.scale.x, |live.scale.x| * SIGNQ live.scale.y⟩
          (newScale, newScale / snap.scale)
        else
          let k1 : Vec2 := ⟨1, cornerScaling.y⟩
          let scale1 := snap.scale * k1
          if m.alt then
            let scale2 : Vec2 := ⟨scale1.x, ROUNDQ scale1.y 10⟩
            (scale2, scale2 / snap.scale)
          else (scale1, k1)
      let newCenter := Ccs.apply ((scaleM pair.2).apply center)
      let cv := o.tanQ live.rotation
      let cur := if |cv| > 1 then CursorType.resizeEW else CursorType.resizeNS
      ({ live with translation := newCenter, scale := pair.1 }, cur)
    else if h = some HandleType.SCALE then
      -- center-anchored SCALE handle
      let ss : Vec2 :=
        if m.shift then
          let factor := o.len sourceTo / o.len sourceFrom
          ⟨factor, factor⟩
        else sourceScaling
      let scale1 := snap.scale * ss
      let scale2 : Vec2 :=
        if m.alt then ⟨ROUNDQ scale1.x 10, ROUNDQ scale1.y 10⟩ else scale1
      let cur := if signG scale2.x * signG scale2.y > 0
        then CursorType.resizeNWSE else CursorType.resizeNESW
      ({ live with scale := scale2 }, cur)
    else if h = some HandleType.CROP then
      -- CROP handle
      let ss : Vec2 :=
        if m.shift then
          let factor := o.len sourceTo / o.len sourceFrom
          ⟨factor, factor⟩
        else sourceScaling
      let crop1 := snap.crop * ss
      let crop2 : Vec2 :=
        if m.alt then ⟨ROUNDQ crop1.x 10, ROUNDQ crop1.y 10⟩ else crop1
      let crop3 : Vec2 := ⟨CLAMPQ crop2.x (1/10) 1, CLAMPQ crop2.y (1/10) 1⟩
      let newScale := snap.scale * (crop3 / snap.crop)
      let cur := if signG newScale.x * signG newScale.y < 0
        then CursorType.resizeNWSE else CursorType.resizeNESW
      ({ live with crop := crop3, scale := newScale }, cur)
    else if h = some HandleType.ROTATE then
      -- ROTATE handle
      let tOnly := translateM snap.translation
      let sf := tOnly.inv.apply sceneFrom
      let st := tOnly.inv.apply sceneTo
      let angle := o.orientedAngle (vnormalize o sf) (vnormalize o st)
      let rot1 := snap.rotation + angle
      let degrees := ctrunc (o.degOf rot1)
      let rot2 := if m.alt then o.radOf ((Int.tdiv degrees 10 * 10 : ℤ) : ℚ) else rot1
      let newScale : Vec2 :=
        if m.shift then live.scale
        else
          let factor := o.len st / o.len sf
          snap.scale * ⟨factor, factor⟩
      ({ live with rotation := rot2, scale := newScale }, CursorType.hand)
    else
      -- picking anywhere but on a grabbed handle (incl. MENU): move the source
      let t1 := snap.translation + sceneTranslation
      let t2 : Vec2 := if m.alt then ⟨ROUNDQ t1.x 10, ROUNDQ t1.y 10⟩ else t1
      let tc :=
        if m.shift then
          let dif := snap.translation - t2
          if |dif.x| > |dif.y| then ((⟨t2.x, snap.translation.y⟩ : Vec2), CursorType.resizeEW)
          else ((⟨snap.translation.x, t2.y⟩ : Vec2), CursorType.resizeNS)
        else (t2, CursorType.resizeAll)
      ({ live with translation := tc.1 }, tc.2)

/-- A source as `GeometryView::pick` sees it: its workspace, lock flag, the
set of node ids its scene groups contain (what `Source::hasNode` /
`Mixer::findSource` test), and the ids of its distinguished nodes: the MENU
handle (`handles_[mode_][Handles::MENU]`), the closed-lock icon (`lock_`),
the open-lock icon (`unlock_`) and the locker group (`locker_`). -/
structure SourceM where
  workspace : ℕ
  locked : Bool
  nodes : List ℕ
  menuNode : ℕ
  lockNode : ℕ
  unlockNode : ℕ
  lockerNode : ℕ
deriving DecidableEq

/-- Result of a pick together with its side effects: the returned
`std::pair<Node*, vec2>` (`none` for a null node), whether the source
context menu was requested (`openContextMenu(MENU_SOURCE)`), the
`setLocked` call applied to the current source, and the id of a non-current
source that was unlocked by the front-to-back scan. -/
structure PickOut where
  result : Option (ℕ × Vec2)
  openMenu : Bool
  setLockCurrent : Option Bool
  unlockedOther : Option ℕ
deriving DecidableEq

/-- The empty pick value `{ nullptr, vec2(0) }` (with no side effects). -/
def emptyPick : PickOut := ⟨none, false, none, none⟩

/-- `Mixer::manager().findSource(node)`: the session source owning a node. -/
def findSourceM (sources : List SourceM) (n : ℕ) : Option SourceM :=
  sources.find? (fun s => s.nodes.contains n)

/-- The front-to-back scan of `GeometryView::pick` over all picked nodes when
the current source was not clicked (src/Selection.h lines 400-429): the first
node of a session source in the current workspace wins; a closed-lock icon
unlocks its source; locked sources are skipped unless CTRL is held. -/
def pickScan (sources : List SourceM) (ws : ℕ) (ctrl : Bool) :
    List (ℕ × Vec2) → PickOut
  | [] => emptyPick
  | p :: rest =>
    match findSourceM sources p.1 with
    | some s =>
      if s.workspace = ws then
        if p.1 = s.lockNode then ⟨some (s.lockerNode, p.2), false, none, some p.1⟩
        else if !s.locked || ctrl then ⟨some (s.lockerNode, p.2), false, none, none⟩
        else pickScan sources ws ctrl rest
      else pickScan sources ws ctrl rest
    | none => pickScan sources ws ctrl rest

/-- `GeometryView::pick(P)` of src/Selection.h (lines 345-433).  `hits` is the
picking visitor's node list in the order the code iterates it (`rbegin` to
`rend`, i.e. front-to-back), `current` is `Mixer::manager().currentSource()`,
`ws` is `Settings::application.current_workspace`, `sources` the session's
source list and `ctrl` the CTRL modifier. -/
def pickG (hits : List (ℕ × Vec2)) (current : Option SourceM) (ws : ℕ)
    (sources : List SourceM) (ctrl : Bool) : PickOut :=
  match hits with
  | [] => emptyPick
  | _ :: _ =>
    let cur0 : Option SourceM :=
      match current with
      | some c => if c.workspace = ws then some c else none
      | none => none
    match cur0 with
    | some c =>
      match hits.find? (fun p => c.nodes.contains p.1) with
      | some p =>
        if p.1 = c.menuNode then ⟨some p, true, none, none⟩
        else if p.1 = c.lockNode then ⟨some p, false, some false, none⟩
        else if p.1 = c.unlockNode then ⟨none, false, some true, none⟩
        else if c.locked && !ctrl then ⟨none, false, none, none⟩
        else ⟨some p, false, none, none⟩
      | none => pickScan sources ws ctrl hits
    | none => pickScan sources ws ctrl hits

/-- The inputs a call of `grab` on the current source needs; used to model
the per-frame manipulation dispatch of the view machinery. -/
structure GrabCtx where
  snap : NodeState
  live : NodeState
  ar : ℚ
  sceneFrom : Vec2
  sceneTo : Vec2
  pk : GrabPick
  m : Mods

/-- Modelled from the spec: the multi-selection suppression performed outside
`grab` — `GeometryView::draw` (src/Selection.h lines 219-225) clears the
current source handed to manipulation when `Mixer::selection().size() > 1`
("suppress manipulation entirely ... return a neutral, non-mutating
session"), so the manipulation sees no source. -/
def effectiveCurrent (selectionSize : ℕ) (s : Option GrabCtx) : Option GrabCtx :=
  if 1 < selectionSize then none else s

/-- The null-source guard of `GeometryView::grab` (src/Selection.h lines
444-446: `if (!s) return ret;`) wrapped around `grab`: with no source,
no node is written (result `none`) and the default cursor is returned. -/
def grabOpt (o : GlmOracle) (s : Option GrabCtx) : Option NodeState × CursorType :=
  match s with
  | none => (none, CursorType.arrow)
  | some c =>
    let r := grab o c.snap c.live c.ar c.sceneFrom c.sceneTo c.pk c.m
    (some r.1, r.2)

/-- The identity transform state (translation 0, rotation 0, unit scale,
full crop) used as a concrete snapshot in witnesses. -/
def idNode : NodeState := ⟨⟨0, 0⟩, 0, ⟨1, 1⟩, ⟨1, 1⟩⟩

theorem Affine2.ext6 (m m' : Affine2) (h1 : m.a = m'.a) (h2 : m.b = m'.b)
    (h3 : m.c = m'.c) (h4 : m.d = m'.d) (h5 : m.tx = m'.tx) (h6 : m.ty = m'.ty) :
    m = m' := by
  cases m; cases m'; simp_all

theorem scaleM_apply (s p : Vec2) : (scaleM s).apply p = ⟨s.x * p.x, s.y * p.y⟩ := by
  apply Vec2.ext2 <;> simp [scaleM, Affine2.apply]

theorem cornerT_apply (ar : ℚ) (κ p : Vec2) :
    (cornerT ar κ).apply p = ⟨1 / ar * p.x + κ.x, p.y + κ.y⟩ := by
  apply Vec2.ext2 <;> simp [cornerT, translateM, scaleM, Affine2.comp, Affine2.apply]

theorem cornerT_det (ar : ℚ) (κ : Vec2) : (cornerT ar κ).det = 1 / ar := by
  simp [cornerT, translateM, scaleM, Affine2.comp, Affine2.det]

theorem nodeMatrix_det (o : GlmOracle) (n : NodeState) :
    (nodeMatrix o n).det
      = ((o.cosQ n.rotation) ^ 2 + (o.sinQ n.rotation) ^ 2) * (n.scale.x * n.scale.y) := by
  simp [nodeMatrix, translateM, rotM, scaleM, Affine2.comp, Affine2.det]
  ring

theorem nodeMatrix_apply_origin (o : GlmOracle) (n : NodeState) :
    (nodeMatrix o n).apply ⟨0, 0⟩ = n.translation := by
  apply Vec2.ext2 <;> simp [nodeMatrix, translateM, rotM, scaleM, Affine2.comp, Affine2.apply]

theorem CLAMPQ_le (v lo hi : ℚ) (h : lo ≤ hi) : CLAMPQ v lo hi ≤ hi := by
  unfold CLAMPQ
  split
  · exact h
  · split
    · exact le_refl _
    · exact le_of_not_lt (by assumption)

theorem le_CLAMPQ (v lo hi : ℚ) (h : lo ≤ hi) : lo ≤ CLAMPQ v lo hi := by
  unfold CLAMPQ
  split
  · exact le_refl _
  · split
    · exact h
    · exact le_of_not_lt (by assumption)

/-- C3 (confirmed).  Crop bound invariant: for every CROP-handle update, for
all drag magnitudes and all modifier combinations, the resulting crop
components satisfy crop.x ∈ [0.1, 1.0] and crop.y ∈ [0.1, 1.0] (clamping is
applied after every mutation of crop). -/
theorem c3_crop_bounds (o : GlmOracle) (snap live : NodeState) (ar : ℚ)
    (sceneFrom sceneTo lc : Vec2) (m : Mods) :
    1/10 ≤ (grab o snap live ar sceneFrom sceneTo
        (GrabPick.onNode (some HandleType.CROP) lc) m).1.crop.x
    ∧ (grab o snap live ar sceneFrom sceneTo
        (GrabPick.onNode (some HandleType.CROP) lc) m).1.crop.x ≤ 1
    ∧ 1/10 ≤ (grab o snap live ar sceneFrom sceneTo
        (GrabPick.onNode (some HandleType.CROP) lc) m).1.crop.y
    ∧ (grab o snap live ar sceneFrom sceneTo
        (GrabPick.onNode (some HandleType.CROP) lc) m).1.crop.y ≤ 1 := by
  simp [grab]
  exact ⟨le_CLAMPQ _ _ _ (by norm_num), CLAMPQ_le _ _ _ (by norm_num),
         le_CLAMPQ _ _ _ (by norm_num), CLAMPQ_le _ _ _ (by norm_num)⟩

/-- C4 (confirmed).  Crop-scale coupling: after the crop is clamped, the new
scale equals snapshot.scale * (new_crop / snapshot.crop) component-wise; and
in the concrete case of snapshot crop (1,1) with raw computed new crop
(0.05, 0.3), the result is crop (0.1, 0.3) and scale equal to the snapshot
scale multiplied by (0.1, 0.3) component-wise. -/
theorem c4_crop_scale_coupling :
    (∀ (o : GlmOracle) (snap live : NodeState) (ar : ℚ) (sceneFrom sceneTo lc : Vec2)
      (m : Mods),
      (grab o snap live ar sceneFrom sceneTo
          (GrabPick.onNode (some HandleType.CROP) lc) m).1.scale
        = snap.scale * ((grab o snap live ar sceneFrom sceneTo
            (GrabPick.onNode (some HandleType.CROP) lc) m).1.crop / snap.crop))
    ∧ (grab dummyOracle idNode idNode 1 ⟨1, 1⟩ ⟨1/20, 3/10⟩
        (GrabPick.onNode (some HandleType.CROP) ⟨1, 1⟩) ⟨false, false⟩).1.crop
        = (⟨1/10, 3/10⟩ : Vec2)
    ∧ (grab dummyOracle idNode idNode 1 ⟨1, 1⟩ ⟨1/20, 3/10⟩
        (GrabPick.onNode (some HandleType.CROP) ⟨1, 1⟩) ⟨false, false⟩).1.scale
        = idNode.scale * (⟨1/10, 3/10⟩ : Vec2) := by
  refine ⟨fun o snap live ar sceneFrom sceneTo lc m => ?_, ?_, ?_⟩
  · simp [grab]
  · simp [grab, nodeMatrix, dummyOracle, idNode, translateM, rotM, scaleM,
      Affine2.comp, Affine2.inv, Affine2.apply, Affine2.det, CLAMPQ]
    norm_num
  · simp [grab, nodeMatrix, dummyOracle, idNode, translateM, rotM, scaleM,
      Affine2.comp, Affine2.inv, Affine2.apply, Affine2.det, CLAMPQ]
    norm_num

/-- C10 (confirmed).  Plain-drag frame condition: an update with a non-empty
pick that is not on any handle (plain drag of the body) changes only the
translation; scale, rotation and crop remain equal to the snapshot's values
(given that they matched the snapshot when the drag started, as they do at
session start), under every combination of the modifiers. -/
theorem c10_plain_drag_frame (o : GlmOracle) (snap live : NodeState) (ar : ℚ)
    (sceneFrom sceneTo lc : Vec2) (m : Mods)
    (hsc : live.scale = snap.scale) (hrot : live.rotation = snap.rotation)
    (hcr : live.crop = snap.crop) :
    (grab o snap live ar sceneFrom sceneTo (GrabPick.onNode none lc) m).1.scale
      = snap.scale
    ∧ (grab o snap live ar sceneFrom sceneTo (GrabPick.onNode none lc) m).1.rotation
      = snap.rotation
    ∧ (grab o snap live ar sceneFrom sceneTo (GrabPick.onNode none lc) m).1.crop
      = snap.crop := by
  simp [grab, hsc, hrot, hcr]

/-- Witness for C10 at a concrete input. -/
theorem c10_plain_drag_frame_witness :
    (grab dummyOracle idNode idNode 1 ⟨0, 0⟩ ⟨3, 4⟩ (GrabPick.onNode none ⟨0, 0⟩)
        ⟨true, true⟩).1.scale = idNode.scale
    ∧ (grab dummyOracle idNode idNode 1 ⟨0, 0⟩ ⟨3, 4⟩ (GrabPick.onNode none ⟨0, 0⟩)
        ⟨true, true⟩).1.rotation = idNode.rotation
    ∧ (grab dummyOracle idNode idNode 1 ⟨0, 0⟩ ⟨3, 4⟩ (GrabPick.onNode none ⟨0, 0⟩)
        ⟨true, true⟩).1.crop = idNode.crop :=
  c10_plain_drag_frame dummyOracle idNode idNode 1 ⟨0, 0⟩ ⟨3, 4⟩ ⟨0, 0⟩
    ⟨true, true⟩ rfl rfl rfl

/-- C7 (confirmed, against the spec-modelled dispatch).  Multi-selection
suppression: with more than one source selected, the view machinery hands no
source to the manipulation, and `grab`'s null-source guard then writes no
node state (result `none`) and yields the neutral cursor, for every
subsequent update. -/
theorem c7_multiselection_suppressed (o : GlmOracle) (nsel : ℕ) (ctx : GrabCtx)
    (h : 1 < nsel) :
    grabOpt o (effectiveCurrent nsel (some ctx)) = (none, CursorType.arrow) := by
  simp [effectiveCurrent, grabOpt, h]

/-- Witness for C7 at a concrete input. -/
theorem c7_multiselection_suppressed_witness :
    grabOpt dummyOracle (effectiveCurrent 2
        (some ⟨idNode, idNode, 1, ⟨0, 0⟩, ⟨1, 1⟩, GrabPick.nothing, ⟨false, false⟩⟩))
      = (none, CursorType.arrow) :=
  c7_multiselection_suppressed dummyOracle 2 _ (by norm_num)

/-- A current source whose MENU handle has node id 5. -/
def curMenuSrc : SourceM := ⟨0, false, [5], 5, 1, 2, 3⟩

/-- A locked current source whose closed-lock icon has node id 7. -/
def curLockSrc : SourceM := ⟨0, true, [7], 9, 7, 2, 3⟩

/-- Counterexample to C5: a pick whose front-most hit on the current object is
the MENU handle opens the context menu but returns the picked node, not an
empty result; likewise a hit on the lock icon unlocks but returns the picked
node.  (`pick` only resets the pair to `{nullptr, vec2(0)}` in the
`unlock_`-icon and locked-without-CTRL branches.) -/
theorem c5_counterexample :
    (pickG [(5, ⟨0, 0⟩)] (some curMenuSrc) 0 [] false).openMenu = true
    ∧ (pickG [(5, ⟨0, 0⟩)] (some curMenuSrc) 0 [] false).result ≠ none
    ∧ (pickG [(7, ⟨0, 0⟩)] (some curLockSrc) 0 [] false).setLockCurrent = some false
    ∧ (pickG [(7, ⟨0, 0⟩)] (some curLockSrc) 0 [] false).result ≠ none := by
  refine ⟨?_, ?_, ?_, ?_⟩ <;> simp [pickG, curMenuSrc, curLockSrc]

/-- C5 (amended).  Icon picks on the current object: if the front-most hit
belonging to the current object is the MENU handle, pick signals opening the
context menu and returns that picked node (not an empty result); if it is the
closed-lock icon, pick unlocks the object and returns that picked node (not
an empty result). -/
theorem c5_icon_pick_amended :
    (∀ (hits : List (ℕ × Vec2)) (cur : SourceM) (ws : ℕ) (sources : List SourceM)
       (ctrl : Bool) (n : ℕ) (v : Vec2),
      cur.workspace = ws →
      hits.find? (fun p => cur.nodes.contains p.1) = some (n, v) →
      n = cur.menuNode →
      pickG hits (some cur) ws sources ctrl = ⟨some (n, v), true, none, none⟩)
    ∧ (∀ (hits : List (ℕ × Vec2)) (cur : SourceM) (ws : ℕ) (sources : List SourceM)
       (ctrl : Bool) (n : ℕ) (v : Vec2),
      cur.workspace = ws →
      hits.find? (fun p => cur.nodes.contains p.1) = some (n, v) →
      n ≠ cur.menuNode → n = cur.lockNode →
      pickG hits (some cur) ws sources ctrl = ⟨some (n, v), false, some false, none⟩) := by
  constructor
  · intro hits cur ws sources ctrl n v hw h hm
    match hits with
    | [] => simp at h
    | p :: rest =>
      simp only [pickG, hw, if_true, h, hm]
  · intro hits cur ws sources ctrl n v hw h hm hl
    subst hl
    match hits with
    | [] => simp at h
    | p :: rest =>
      simp only [pickG, hw, if_true, h]
      simp [hm]

/-- Witness for C5's amended theorem at concrete inputs. -/
theorem c5_icon_pick_witness :
    pickG [(5, ⟨0, 0⟩)] (some curMenuSrc) 0 [] false
      = ⟨some (5, ⟨0, 0⟩), true, none, none⟩
    ∧ pickG [(7, ⟨0, 0⟩)] (some curLockSrc) 0 [] false
      = ⟨some (7, ⟨0, 0⟩), false, some false, none⟩ :=
  ⟨c5_icon_pick_amended.1 [(5, ⟨0, 0⟩)] curMenuSrc 0 [] false 5 ⟨0, 0⟩ rfl
      (by simp [curMenuSrc]) rfl,
   c5_icon_pick_amended.2 [(7, ⟨0, 0⟩)] curLockSrc 0 [] false 7 ⟨0, 0⟩ rfl
      (by simp [curLockSrc]) (by simp [curLockSrc]) rfl⟩

/-- C8 (amended).  Corner-frame construction: `T · inverse(objectTransform)`
with `T = translate(corner) · scale(1/aspectRatio, 1)` maps scene points into
a frame in which the corner of the object OPPOSITE to the picked corner
(i.e. the object corner at −corner) sits at the origin — not the picked
corner itself. -/
theorem c8_corner_frame_amended (o : GlmOracle) (n : NodeState) (ar : ℚ) (corner : Vec2)
    (har : ar ≠ 0) (hsx : n.scale.x ≠ 0) (hsy : n.scale.y ≠ 0)
    (hcs : (o.cosQ n.rotation) ^ 2 + (o.sinQ n.rotation) ^ 2 ≠ 0) :
    (sceneToCorner o n ar corner).apply (cornerScenePos o n ar (-corner)) = ⟨0, 0⟩ := by
  have hM : (nodeMatrix o n).det ≠ 0 := by
    rw [nodeMatrix_det]; exact mul_ne_zero hcs (mul_ne_zero hsx hsy)
  unfold cornerScenePos sceneToCorner
  rw [Affine2.apply_comp, Affine2.inv_apply_apply _ hM, cornerT_apply]
  apply Vec2.ext2
  · simp
    field_simp
  · simp

/-- Witness for C8's amended theorem at a concrete input. -/
theorem c8_corner_frame_witness :
    (sceneToCorner dummyOracle idNode 1 ⟨1, 1⟩).apply
        (cornerScenePos dummyOracle idNode 1 (-⟨1, 1⟩)) = ⟨0, 0⟩ :=
  c8_corner_frame_amended dummyOracle idNode 1 ⟨1, 1⟩ (by norm_num)
    (by norm_num [idNode]) (by norm_num [idNode]) (by norm_num [dummyOracle, idNode])

/-- Counterexample to C8: with the identity object transform, aspect ratio 1
and picked corner (1,1), the corner-frame matrix sends the PICKED corner's
scene position (1,1) to (2,2), not to the origin (the origin is where the
opposite corner lands). -/
theorem c8_counterexample :
    (sceneToCorner dummyOracle idNode 1 ⟨1, 1⟩).apply
        (cornerScenePos dummyOracle idNode 1 ⟨1, 1⟩) = ⟨2, 2⟩
    ∧ ((⟨2, 2⟩ : Vec2) ≠ (⟨0, 0⟩ : Vec2)) := by
  constructor
  · simp [sceneToCorner, cornerScenePos, cornerT, nodeMatrix, dummyOracle, idNode,
      translateM, rotM, scaleM, Affine2.comp, Affine2.inv, Affine2.apply, Affine2.det]
    norm_num
  · intro h
    have := congrArg Vec2.x h
    norm_num at this

/-- C9 (confirmed).  NoTarget is a no-op: a pick on the body of a locked
current object without the CTRL override returns the empty result, and a
`grab` call with a null pick leaves the node state untouched and returns the
neutral (default) cursor. -/
theorem c9_notarget_noop :
    (∀ (hits : List (ℕ × Vec2)) (cur : SourceM) (ws : ℕ) (sources : List SourceM)
       (n : ℕ) (v : Vec2),
      cur.workspace = ws → cur.locked = true →
      hits.find? (fun p => cur.nodes.contains p.1) = some (n, v) →
      n ≠ cur.menuNode → n ≠ cur.lockNode → n ≠ cur.unlockNode →
      (pickG hits (some cur) ws sources false).result = none)
    ∧ (∀ (o : GlmOracle) (snap live : NodeState) (ar : ℚ) (sceneFrom sceneTo : Vec2)
       (m : Mods),
      grab o snap live ar sceneFrom sceneTo GrabPick.nothing m
        = (live, CursorType.arrow)) := by
  constructor
  · intro hits cur ws sources n v hw hl h hm hk hu
    match hits with
    | [] => simp at h
    | p :: rest =>
      simp only [pickG, hw, if_true, h]
      simp [hm, hk, hu, hl]
  · intro o snap live ar sceneFrom sceneTo m
    rfl

/-- Witness for C9 at concrete inputs: a locked source picked on its body
node yields the empty pick, and a null-pick grab is the identity with the
neutral cursor. -/
theorem c9_notarget_noop_witness :
    (pickG [(7, ⟨0, 0⟩)] (some (⟨0, true, [7], 1, 2, 3, 4⟩ : SourceM)) 0 [] false).result
      = none
    ∧ grab dummyOracle idNode idNode 1 ⟨0, 0⟩ ⟨1, 1⟩ GrabPick.nothing ⟨false, false⟩
      = (idNode, CursorType.arrow) :=
  ⟨c9_notarget_noop.1 [(7, ⟨0, 0⟩)] ⟨0, true, [7], 1, 2, 3, 4⟩ 0 [] 7 ⟨0, 0⟩ rfl rfl
      (by simp) (by norm_num) (by norm_num) (by norm_num),
   c9_notarget_noop.2 dummyOracle idNode idNode 1 ⟨0, 0⟩ ⟨1, 1⟩ ⟨false, false⟩⟩

theorem mulDivCancel (a : ℚ) (ha : a ≠ 0) (b : ℚ) : a * (b / a) = b := by
  rw [mul_comm, div_mul_cancel₀ _ ha]

theorem vec2_mul_div_cancel (a : Vec2) (hx : a.x ≠ 0) (hy : a.y ≠ 0) (b : Vec2) :
    a * (b / a) = b := by
  apply Vec2.ext2 <;> simp
  · rw [mul_comm, div_mul_cancel₀ _ hx]
  · rw [mul_comm, div_mul_cancel₀ _ hy]

/-- Core of corner anchoring: whatever componentwise corner scaling `k` a
RESIZE update ends up applying, moving the center to
`corner_to_scene · scale(k) · scene_to_corner · snapshot.center` while
multiplying the scale by `k` leaves the scene position of the object corner
at −corner (the corner opposite the picked one) unchanged. -/
theorem resize_anchor_core (o : GlmOracle) (snap : NodeState) (ar : ℚ)
    (corner k cr : Vec2) (rot' : ℚ) (hrot' : rot' = snap.rotation)
    (har : ar ≠ 0) (hsx : snap.scale.x ≠ 0) (hsy : snap.scale.y ≠ 0)
    (hcs : (o.cosQ snap.rotation) ^ 2 + (o.sinQ snap.rotation) ^ 2 ≠ 0) :
    cornerScenePos o
        ⟨(sceneToCorner o snap ar corner).inv.apply
            ((scaleM k).apply ((sceneToCorner o snap ar corner).apply snap.translation)),
          rot', snap.scale * k, cr⟩ ar (-corner)
      = cornerScenePos o snap ar (-corner) := by
  subst hrot'
  have hM : (nodeMatrix o snap).det ≠ 0 := by
    rw [nodeMatrix_det]; exact mul_ne_zero hcs (mul_ne_zero hsx hsy)
  have hCsc : (sceneToCorner o snap ar corner).det ≠ 0 := by
    simp only [sceneToCorner]
    rw [Affine2.det_comp, cornerT_det, Affine2.det_inv]
    exact mul_ne_zero (one_div_ne_zero har) (inv_ne_zero hM)
  have h1 : (sceneToCorner o snap ar corner).apply snap.translation = corner := by
    simp only [sceneToCorner]
    rw [Affine2.apply_comp]
    have h0 : (nodeMatrix o snap).inv.apply snap.translation = ⟨0, 0⟩ := by
      conv_lhs => rw [← nodeMatrix_apply_origin o snap]
      exact Affine2.inv_apply_apply _ hM _
    rw [h0, cornerT_apply]
    apply Vec2.ext2 <;> simp
  have h3 : (sceneToCorner o snap ar corner).apply
      ((nodeMatrix o snap).apply ⟨ar * corner.x * (k.x - 1), corner.y * (k.y - 1)⟩)
      = (scaleM k).apply corner := by
    simp only [sceneToCorner]
    rw [Affine2.apply_comp, Affine2.inv_apply_apply _ hM, cornerT_apply, scaleM_apply]
    apply Vec2.ext2
    · simp
      field_simp
      ring
    · simp
      ring
  have h2 : (sceneToCorner o snap ar corner).inv.apply ((scaleM k).apply corner)
      = (nodeMatrix o snap).apply ⟨ar * corner.x * (k.x - 1), corner.y * (k.y - 1)⟩ := by
    rw [← h3, Affine2.inv_apply_apply _ hCsc]
  rw [h1, h2]
  unfold cornerScenePos
  apply Vec2.ext2 <;>
    · simp [nodeMatrix, translateM, rotM, scaleM, Affine2.comp, Affine2.apply]
      ring

/-- Every RESIZE update has the anchored shape: for some componentwise corner
scaling `k` (depending on the modifiers), the new scale is snapshot.scale·k
and the new center is the snapshot center scaled by `k` in the corner frame. -/
theorem grab_resize_shape (o : GlmOracle) (snap live : NodeState) (ar : ℚ)
    (sceneFrom sceneTo lc : Vec2) (m : Mods)
    (hsx : snap.scale.x ≠ 0) (hsy : snap.scale.y ≠ 0) :
    ∃ k : Vec2,
      (grab o snap live ar sceneFrom sceneTo
          (GrabPick.onNode (some HandleType.RESIZE) lc) m).1
        = { live with
            translation := (sceneToCorner o snap ar (roundV lc)).inv.apply
              ((scaleM k).apply
                ((sceneToCorner o snap ar (roundV lc)).apply snap.translation)),
            scale := snap.scale * k } := by
  obtain ⟨sh, al⟩ := m
  cases sh <;> cases al
  · exact ⟨(sceneToCorner o snap ar (roundV lc)).apply sceneTo /
        (sceneToCorner o snap ar (roundV lc)).apply sceneFrom, by simp [grab]⟩
  · refine ⟨(⟨ROUNDQ (snap.scale * ((sceneToCorner o snap ar (roundV lc)).apply sceneTo /
        (sceneToCorner o snap ar (roundV lc)).apply sceneFrom)).x 10,
        ROUNDQ (snap.scale * ((sceneToCorner o snap ar (roundV lc)).apply sceneTo /
        (sceneToCorner o snap ar (roundV lc)).apply sceneFrom)).y 10⟩ : Vec2) / snap.scale,
      ?_⟩
    simp [grab, mulDivCancel snap.scale.x hsx, mulDivCancel snap.scale.y hsy,
      mul_div_cancel_left₀ _ hsx, mul_div_cancel_left₀ _ hsy]
  · refine ⟨(snap.scale * ⟨o.len ((sceneToCorner o snap ar (roundV lc)).apply sceneTo) /
        o.len ((sceneToCorner o snap ar (roundV lc)).apply sceneFrom),
        o.len ((sceneToCorner o snap ar (roundV lc)).apply sceneTo) /
        o.len ((sceneToCorner o snap ar (roundV lc)).apply sceneFrom)⟩) / snap.scale, ?_⟩
    simp [grab, mulDivCancel snap.scale.x hsx, mulDivCancel snap.scale.y hsy,
      mul_div_cancel_left₀ _ hsx, mul_div_cancel_left₀ _ hsy]
  · refine ⟨(⟨ROUNDQ (snap.scale * ⟨o.len ((sceneToCorner o snap ar (roundV lc)).apply sceneTo) /
        o.len ((sceneToCorner o snap ar (roundV lc)).apply sceneFrom),
        o.len ((sceneToCorner o snap ar (roundV lc)).apply sceneTo) /
        o.len ((sceneToCorner o snap ar (roundV lc)).apply sceneFrom)⟩).x 10,
      snap.scale.y * (ROUNDQ (snap.scale * ⟨o.len ((sceneToCorner o snap ar (roundV lc)).apply sceneTo) /
        o.len ((sceneToCorner o snap ar (roundV lc)).apply sceneFrom),
        o.len ((sceneToCorner o snap ar (roundV lc)).apply sceneTo) /
        o.len ((sceneToCorner o snap ar (roundV lc)).apply sceneFrom)⟩).x 10 / snap.scale.x)⟩ : Vec2)
      / snap.scale, ?_⟩
    simp [grab, mulDivCancel snap.scale.x hsx, mulDivCancel snap.scale.y hsy,
      mul_div_cancel_left₀ _ hsx, mul_div_cancel_left₀ _ hsy]

/-- C2 (confirmed).  Corner anchoring: for every RESIZE-handle update, with or
without the proportional/discretize modifiers, the scene-space position of
the object's corner opposite the picked corner is unchanged by the update
(exactly, in the ideal arithmetic), because the center is recomputed by
applying the corner scaling to the snapshot center in the corner frame. -/
theorem c2_corner_anchoring (o : GlmOracle) (snap live : NodeState) (ar : ℚ)
    (sceneFrom sceneTo lc : Vec2) (m : Mods)
    (har : ar ≠ 0) (hsx : snap.scale.x ≠ 0) (hsy : snap.scale.y ≠ 0)
    (hcs : (o.cosQ snap.rotation) ^ 2 + (o.sinQ snap.rotation) ^ 2 ≠ 0)
    (hlrot : live.rotation = snap.rotation) :
    cornerScenePos o
        (grab o snap live ar sceneFrom sceneTo
          (GrabPick.onNode (some HandleType.RESIZE) lc) m).1 ar (-(roundV lc))
      = cornerScenePos o snap ar (-(roundV lc)) := by
  obtain ⟨k, hk⟩ := grab_resize_shape o snap live ar sceneFrom sceneTo lc m hsx hsy
  rw [hk]
  exact resize_anchor_core o snap ar (roundV lc) k live.crop live.rotation hlrot
    har hsx hsy hcs

/-- Witness for C2 at a concrete input (identity snapshot, aspect ratio 1,
picked corner (1,1), no modifiers). -/
theorem c2_corner_anchoring_witness :
    cornerScenePos dummyOracle
        (grab dummyOracle idNode idNode 1 ⟨0, 0⟩ ⟨1, 3⟩
          (GrabPick.onNode (some HandleType.RESIZE) ⟨1, 1⟩) ⟨false, false⟩).1
        1 (-(roundV ⟨1, 1⟩))
      = cornerScenePos dummyOracle idNode 1 (-(roundV ⟨1, 1⟩)) :=
  c2_corner_anchoring dummyOracle idNode idNode 1 ⟨0, 0⟩ ⟨1, 3⟩ ⟨1, 1⟩ ⟨false, false⟩
    (by norm_num) (by norm_num [idNode]) (by norm_num [idNode])
    (by norm_num [dummyOracle, idNode]) rfl

/-- The snapshot of the spec's RESIZE proportional example: scale (2,1),
rotation 0, translation 0, full crop. -/
def snapC6 : NodeState := ⟨⟨0, 0⟩, 0, ⟨2, 1⟩, ⟨1, 1⟩⟩

/-- C6 (confirmed).  Proportional RESIZE: with the proportional modifier (and
no discretization) both scale axes are multiplied by the uniform factor
‖cornerFrame(to)‖ / ‖cornerFrame(from)‖; with the proportional modifier held
(with or without discretization) the resulting scale.x/scale.y ratio equals
the snapshot ratio; and in the concrete corner-frame case from=(1,1),
to=(2,2) with snapshot scale (2,1) and rotation 0, the factor is 2 and the
new scale is (4,2). -/
theorem c6_proportional_resize :
    (∀ (o : GlmOracle) (snap live : NodeState) (ar : ℚ) (sceneFrom sceneTo lc : Vec2),
      (grab o snap live ar sceneFrom sceneTo
          (GrabPick.onNode (some HandleType.RESIZE) lc) ⟨true, false⟩).1.scale
        = snap.scale *
          ⟨o.len ((sceneToCorner o snap ar (roundV lc)).apply sceneTo) /
             o.len ((sceneToCorner o snap ar (roundV lc)).apply sceneFrom),
           o.len ((sceneToCorner o snap ar (roundV lc)).apply sceneTo) /
             o.len ((sceneToCorner o snap ar (roundV lc)).apply sceneFrom)⟩)
    ∧ (∀ (o : GlmOracle) (snap live : NodeState) (ar : ℚ) (sceneFrom sceneTo lc : Vec2)
        (al : Bool), snap.scale.x ≠ 0 →
      (grab o snap live ar sceneFrom sceneTo
          (GrabPick.onNode (some HandleType.RESIZE) lc) ⟨true, al⟩).1.scale.x * snap.scale.y
        = (grab o snap live ar sceneFrom sceneTo
            (GrabPick.onNode (some HandleType.RESIZE) lc) ⟨true, al⟩).1.scale.y
          * snap.scale.x)
    ∧ (∀ o : GlmOracle, o.cosQ 0 = 1 → o.sinQ 0 = 0 → o.len ⟨1, 1⟩ ≠ 0 →
        o.len ⟨2, 2⟩ = 2 * o.len ⟨1, 1⟩ →
      (grab o snapC6 snapC6 1 ⟨0, 0⟩ ⟨2, 1⟩
          (GrabPick.onNode (some HandleType.RESIZE) ⟨1, 1⟩) ⟨true, false⟩).1.scale
        = ⟨4, 2⟩) := by
  refine ⟨?_, ?_, ?_⟩
  · intro o snap live ar sceneFrom sceneTo lc
    simp [grab]
  · intro o snap live ar sceneFrom sceneTo lc al hsx
    cases al
    · simp [grab]
      ring
    · simp [grab]
      field_simp
      ring
  · intro o hc hs hl1 hl2
    have hCsc : sceneToCorner o snapC6 1 (roundV ⟨1, 1⟩) = ⟨1/2, 0, 0, 1, 1, 1⟩ := by
      have hrv : roundV (⟨1, 1⟩ : Vec2) = ⟨1, 1⟩ := by
        norm_num [roundV, roundHalfAway]
      rw [hrv]
      apply Affine2.ext6 <;>
        norm_num [sceneToCorner, nodeMatrix, snapC6, cornerT, translateM, rotM, scaleM,
          Affine2.comp, Affine2.inv, Affine2.det, hc, hs]
    have hsc : snapC6.scale = ⟨2, 1⟩ := rfl
    simp [grab, hCsc, hsc, Affine2.apply]
    norm_num [hl2, mul_div_cancel_right₀ _ hl1]

/-- Witness for C6 at concrete inputs (both hypothesis-bearing parts are
instantiated with the computable stand-in oracle, which satisfies the assumed
norm and trigonometric facts at the concrete points used). -/
theorem c6_proportional_resize_witness :
    (grab dummyOracle snapC6 snapC6 1 ⟨0, 0⟩ ⟨2, 1⟩
        (GrabPick.onNode (some HandleType.RESIZE) ⟨1, 1⟩) ⟨true, false⟩).1.scale
      = (⟨4, 2⟩ : Vec2)
    ∧ (grab dummyOracle snapC6 snapC6 1 ⟨0, 0⟩ ⟨2, 1⟩
        (GrabPick.onNode (some HandleType.RESIZE) ⟨1, 1⟩) ⟨true, true⟩).1.scale.x
        * snapC6.scale.y
      = (grab dummyOracle snapC6 snapC6 1 ⟨0, 0⟩ ⟨2, 1⟩
          (GrabPick.onNode (some HandleType.RESIZE) ⟨1, 1⟩) ⟨true, true⟩).1.scale.y
        * snapC6.scale.x :=
  ⟨c6_proportional_resize.2.2 dummyOracle rfl rfl (by norm_num [dummyOracle])
      (by norm_num [dummyOracle]),
   c6_proportional_resize.2.1 dummyOracle snapC6 snapC6 1 ⟨0, 0⟩ ⟨2, 1⟩ ⟨1, 1⟩ true
      (by norm_num [snapC6])⟩

theorem signq_abs_cancel (a b : ℚ) : |a| * SIGNQ (|a| * SIGNQ b) = |a| * SIGNQ b := by
  rcases eq_or_ne a 0 with h | h
  · simp [h]
  · have ha : 0 < |a| := abs_pos.mpr h
    unfold SIGNQ
    by_cases hb : b < 0
    · simp only [if_pos hb]
      have hneg : |a| * (-1 : ℚ) < 0 := mul_neg_of_pos_of_neg ha (by norm_num)
      rw [if_pos hneg]
    · simp only [if_neg hb]
      have hpos : ¬(|a| * (1 : ℚ) < 0) := by
        rw [mul_one]
        exact not_lt.mpr (le_of_lt ha)
      rw [if_neg hpos]

/-- One `grab` call viewed as a step function on the live node state, with the
session-constant data (snapshot, aspect ratio, press point, pick, modifiers)
fixed: `grabStep … live to` is the node state after an update to scene point
`to` from live state `live`. -/
def grabStep (o : GlmOracle) (snap : NodeState) (ar : ℚ) (sceneFrom : Vec2)
    (pk : GrabPick) (m : Mods) (live : NodeState) (sceneTo : Vec2) : NodeState :=
  (grab o snap live ar sceneFrom sceneTo pk m).1

/-- Restart property: a second update from the state produced by a first
update (that itself started at the snapshot) gives exactly the state a single
update from the snapshot gives — with the pick and the modifier state held
fixed across the calls. -/
theorem grabStep_restart (o : GlmOracle) (snap : NodeState) (ar : ℚ) (f : Vec2)
    (pk : GrabPick) (m : Mods) (q p : Vec2) :
    grabStep o snap ar f pk m (grabStep o snap ar f pk m snap q) p
      = grabStep o snap ar f pk m snap p := by
  obtain ⟨sh, al⟩ := m
  rcases pk with _ | ⟨h, lc⟩
  · rfl
  · rcases h with _ | ht
    · cases sh <;> cases al <;> simp [grabStep, grab]
    · cases ht <;> cases sh <;> cases al <;>
        simp [grabStep, grab, signq_abs_cancel]

theorem grabStep_foldl_aux (o : GlmOracle) (snap : NodeState) (ar : ℚ) (f : Vec2)
    (pk : GrabPick) (m : Mods) :
    ∀ (l : List Vec2) (q p : Vec2),
      List.foldl (grabStep o snap ar f pk m)
          (grabStep o snap ar f pk m snap q) (l ++ [p])
        = grabStep o snap ar f pk m snap p := by
  intro l
  induction l with
  | nil =>
    intro q p
    simpa using grabStep_restart o snap ar f pk m q p
  | cons r l ih =>
    intro q p
    simp only [List.cons_append, List.foldl_cons]
    rw [grabStep_restart]
    exact ih r p

/-- C1 (amended).  Non-drift with a fixed modifier state: for every handle
kind (and the plain drag), every snapshot, and every sequence of grab calls
that starts at the snapshot, keeps the pick and the modifier state fixed, and
ends at scene point p, the resulting node state equals the state produced by
a single grab call at p from the snapshot.  (The unrestricted claim is false:
the RESIZE_H/RESIZE_V proportional rule reads the live node's scale, so a
sequence whose calls sample different modifier states can differ from the
single call — see the counterexample.) -/
theorem c1_nondrift_fixed_modifiers (o : GlmOracle) (snap : NodeState) (ar : ℚ)
    (f : Vec2) (pk : GrabPick) (m : Mods) (ps : List Vec2) (p : Vec2) :
    List.foldl (grabStep o snap ar f pk m) snap (ps ++ [p])
      = grabStep o snap ar f pk m snap p := by
  cases ps with
  | nil => simp
  | cons q l =>
    simp only [List.cons_append, List.foldl_cons]
    exact grabStep_foldl_aux o snap ar f pk m l q p

/-- Counterexample to C1 as stated: a two-call RESIZE_H drag whose first call
(no modifiers, crossing the opposite edge so the x scale flips sign) is
followed by a call with the proportional modifier at the final point differs
from a single proportional call at that final point — the proportional
RESIZE_H rule reads the live node's scale (sign and magnitude), so the claim
that no rule reads the previous frame's live value, and that every sequence
collapses to a single call, fails. -/
theorem c1_counterexample :
    grabStep dummyOracle idNode 1 ⟨0, 0⟩
        (GrabPick.onNode (some HandleType.RESIZE_H) ⟨1, 0⟩) ⟨true, false⟩
        (grabStep dummyOracle idNode 1 ⟨0, 0⟩
          (GrabPick.onNode (some HandleType.RESIZE_H) ⟨1, 0⟩) ⟨false, false⟩
          idNode ⟨-2, 0⟩) ⟨0, 0⟩
      ≠ grabStep dummyOracle idNode 1 ⟨0, 0⟩
          (GrabPick.onNode (some HandleType.RESIZE_H) ⟨1, 0⟩) ⟨true, false⟩
          idNode ⟨0, 0⟩ := by
  have hsc : idNode.scale = ⟨1, 1⟩ := rfl
  have htr : idNode.translation = ⟨0, 0⟩ := rfl
  have hcp : idNode.crop = ⟨1, 1⟩ := rfl
  have hCscId : sceneToCorner dummyOracle idNode 1 (roundV ⟨1, 0⟩)
      = ⟨1, 0, 0, 1, 1, 0⟩ := by
    have hrv : roundV (⟨1, 0⟩ : Vec2) = ⟨1, 0⟩ := by
      norm_num [roundV, roundHalfAway]
    rw [hrv]
    apply Affine2.ext6 <;>
      norm_num [sceneToCorner, nodeMatrix, idNode, cornerT, translateM, rotM, scaleM,
        Affine2.comp, Affine2.inv, Affine2.det, dummyOracle]
  have hinner : grabStep dummyOracle idNode 1 ⟨0, 0⟩
      (GrabPick.onNode (some HandleType.RESIZE_H) ⟨1, 0⟩) ⟨false, false⟩
      idNode ⟨-2, 0⟩ = ⟨⟨-2, 0⟩, idNode.rotation, ⟨-1, 1⟩, ⟨1, 1⟩⟩ := by
    simp [grabStep, grab, hCscId, hsc, htr, hcp, Affine2.inv, Affine2.det,
      Affine2.apply, scaleM]
    norm_num
  have h1 : (grabStep dummyOracle idNode 1 ⟨0, 0⟩
      (GrabPick.onNode (some HandleType.RESIZE_H) ⟨1, 0⟩) ⟨true, false⟩
      (grabStep dummyOracle idNode 1 ⟨0, 0⟩
        (GrabPick.onNode (some HandleType.RESIZE_H) ⟨1, 0⟩) ⟨false, false⟩
        idNode ⟨-2, 0⟩) ⟨0, 0⟩).scale.x = -1 := by
    rw [hinner]
    simp [grabStep, grab, SIGNQ]
  have h2 : (grabStep dummyOracle idNode 1 ⟨0, 0⟩
      (GrabPick.onNode (some HandleType.RESIZE_H) ⟨1, 0⟩) ⟨true, false⟩
      idNode ⟨0, 0⟩).scale.x = 1 := by
    simp [grabStep, grab, hsc, SIGNQ]
  intro h
  rw [h, h2] at h1
  norm_num at h1
